import Mathlib

/-!
Verification of the write-barrier policy subsystem of
`lib/Common/Memory/RecyclerPointers.h`.

The C++ source decides, at compile time, whether mutating a pointer-sized
field of collector-managed memory must notify the garbage collector
(`RecyclerWriteBarrierManager`).  The decision is made by a chain of
template specializations over the stored element's type and the allocator
tag; the wrapper classes `WriteBarrierPtr`, `NoWriteBarrierPtr` and
`NoWriteBarrierField` make the decision inseparable from the mutation.

We embed the template-level computation as functions over inductive
codes for C++ types and allocator tags, and embed each wrapper operation
as a pure state transformer that additionally returns the list of
notifications ("hook events") it delivers to the barrier manager, in order.
The build-time switch `RECYCLER_WRITE_BARRIER` is a boolean parameter `wb`.
-/

namespace Memory

/-- The two policy tag structs `_write_barrier_policy` and
`_no_write_barrier_policy` of the source. -/
inductive Policy where
  | write_barrier_policy
  | no_write_barrier_policy
deriving DecidableEq, Repr

/-- Codes for the C++ element types the classifier chain distinguishes:
`T*`, `WriteBarrierPtr<T>`, `NoWriteBarrierPtr<T>`, `NoWriteBarrierField<T>`,
the tag struct `_write_barrier_policy` used as a type, `int`, and any other
(non-pointer) type, indexed by a natural number. -/
inductive CppType where
  | ptr (t : CppType)
  | writeBarrierPtr (t : CppType)
  | noWriteBarrierPtr (t : CppType)
  | noWriteBarrierField (t : CppType)
  | writeBarrierPolicyTag
  | intT
  | other (n : Nat)
deriving DecidableEq, Repr

/-- `TypeWriteBarrierPolicy<T>`: the primary template yields
`_no_write_barrier_policy`; the specializations for `T*`,
`WriteBarrierPtr<T>` and `_write_barrier_policy` yield
`_write_barrier_policy`. -/
def TypeWriteBarrierPolicy : CppType → Policy
  | .ptr _ => .write_barrier_policy
  | .writeBarrierPtr _ => .write_barrier_policy
  | .writeBarrierPolicyTag => .write_barrier_policy
  | _ => .no_write_barrier_policy

/-- Codes for allocator tags: the three recycler allocators named in the
source, and arbitrary unregistered allocator tags. -/
inductive Allocator where
  | Recycler
  | RecyclerNonLeafAllocator
  | RecyclerLeafAllocator
  | otherTag (n : Nat)
deriving DecidableEq, Repr

/-- Modelled from the spec: `AllocatorInfo<Allocator, void>::AllocatorType`
is declared in `Allocator.h`, which is outside this file.  Per the spec's
allocator classifier, each allocator presents its own stable tag and only
the general tracing allocator (`Recycler`) is registered as the tracing
allocator type, so the known-leaf allocator and unregistered tags map to
themselves and fall to the non-tracing default below. -/
def AllocatorInfo_AllocatorType (a : Allocator) : Allocator := a

/-- `_AllocatorTypeWriteBarrierPolicy<AllocatorType>`: the primary template
yields `_no_write_barrier_policy`; the sole specialization, for `Recycler`,
yields `_write_barrier_policy`. -/
def AllocatorTypeWriteBarrierPolicy : Allocator → Policy
  | .Recycler => .write_barrier_policy
  | _ => .no_write_barrier_policy

/-- `_AndWriteBarrierPolicy<Policy1, Policy2>`: `_write_barrier_policy`
only when both arguments are `_write_barrier_policy`. -/
def AndWriteBarrierPolicy : Policy → Policy → Policy
  | .write_barrier_policy, .write_barrier_policy => .write_barrier_policy
  | _, _ => .no_write_barrier_policy

/-- `AllocatorWriteBarrierPolicy<Allocator, T>`: the full specialization
`<RecyclerNonLeafAllocator, int>` pins `_no_write_barrier_policy`; the
partial specialization `<RecyclerNonLeafAllocator, T>` yields
`_write_barrier_policy`; the primary template combines the allocator-type
policy (through `AllocatorInfo`) with the element-type policy. -/
def AllocatorWriteBarrierPolicy (alloc : Allocator) (t : CppType) : Policy :=
  match alloc, t with
  | .RecyclerNonLeafAllocator, .intT => .no_write_barrier_policy
  | .RecyclerNonLeafAllocator, _ => .write_barrier_policy
  | a, u =>
      AndWriteBarrierPolicy
        (AllocatorTypeWriteBarrierPolicy (AllocatorInfo_AllocatorType a))
        (TypeWriteBarrierPolicy u)

/-- Size in bytes of a pointer, hence of a `WriteBarrierPtr` slot
(`sizeof(T*) = sizeof(WriteBarrierPtr<T>)`, the class's only member). -/
def ptrSize : Nat := 8

/-- One notification delivered to `RecyclerWriteBarrierManager::WriteBarrier`:
the start address of the notified region, its byte length, and the contents
of the region at the moment of the call (one entry per element slot).  The
snapshot records the store/notify ordering: the value the collector can
observe through the notified address. -/
structure HookEvent where
  addr : Nat
  bytes : Nat
  snapshot : List Nat
deriving DecidableEq, Repr

/-- State of one `WriteBarrierPtr<T>` instance: the address of the slot
itself (`this`) and the stored pointer bits (`ptr`; 0 encodes null). -/
structure WriteBarrierPtr where
  addr : Nat
  ptr : Nat
deriving DecidableEq, Repr

/-- `WriteBarrierPtr::NoWriteBarrierSet(ptr)`: plain store, no notification. -/
def WriteBarrierPtr.NoWriteBarrierSet (s : WriteBarrierPtr) (p : Nat) : WriteBarrierPtr :=
  { s with ptr := p }

/-- `RecyclerWriteBarrierManager::WriteBarrier(this)`: notify over the
wrapper's own slot; the snapshot is the slot's current contents. -/
def RecyclerWriteBarrierManager_WriteBarrier (s : WriteBarrierPtr) : List HookEvent :=
  [⟨s.addr, ptrSize, [s.ptr]⟩]

/-- `WriteBarrierPtr::WriteBarrierSet(ptr)`: store through
`NoWriteBarrierSet`, then (only when `RECYCLER_WRITE_BARRIER` is compiled
in, parameter `wb`) notify the barrier manager over `this`. -/
def WriteBarrierPtr.WriteBarrierSet (wb : Bool) (s : WriteBarrierPtr) (p : Nat) :
    WriteBarrierPtr × List HookEvent :=
  let s1 := s.NoWriteBarrierSet p
  (s1, if wb then RecyclerWriteBarrierManager_WriteBarrier s1 else [])

/-- `WriteBarrierPtr::operator=(T*)`: delegates to `WriteBarrierSet`. -/
def WriteBarrierPtr.assign (wb : Bool) (s : WriteBarrierPtr) (p : Nat) :
    WriteBarrierPtr × List HookEvent :=
  s.WriteBarrierSet wb p

/-- `WriteBarrierPtr::operator=(WriteBarrierPtr const&)`: delegates to
`WriteBarrierSet(other.ptr)`. -/
def WriteBarrierPtr.assignFromWrapper (wb : Bool) (s other : WriteBarrierPtr) :
    WriteBarrierPtr × List HookEvent :=
  s.WriteBarrierSet wb other.ptr

/-- `WriteBarrierPtr::WriteBarrierPtr(T*)`: the converting constructor
calls `NoWriteBarrierSet(ptr)` and nothing else; `g` is the slot's
uninitialized garbage before the store and `wb` the build switch, neither
of which influences the outcome. -/
def WriteBarrierPtr.construct (wb : Bool) (addr g p : Nat) :
    WriteBarrierPtr × List HookEvent :=
  let s0 : WriteBarrierPtr := ⟨addr, g⟩
  have _ := wb
  (s0.NoWriteBarrierSet p, [])

/-- State of one `NoWriteBarrierPtr<T>` instance: the address of the slot
and the stored pointer bits. -/
structure NoWriteBarrierPtr where
  addr : Nat
  value : Nat
deriving DecidableEq, Repr

/-- `NoWriteBarrierPtr::operator=(T*)`: plain store, never notifies. -/
def NoWriteBarrierPtr.assign (s : NoWriteBarrierPtr) (p : Nat) :
    NoWriteBarrierPtr × List HookEvent :=
  ({ s with value := p }, [])

/-- `NoWriteBarrierPtr::NoWriteBarrierPtr(T*)`: direct member init. -/
def NoWriteBarrierPtr.construct (addr p : Nat) : NoWriteBarrierPtr × List HookEvent :=
  ({ addr := addr, value := p }, [])

/-- `NoWriteBarrierPtr::operator&()` (non-const): returns `&value`, the
address of the stored pointer, which is the slot's own address since
`value` is the class's only member. -/
def NoWriteBarrierPtr.operatorAmp (s : NoWriteBarrierPtr) : Nat := s.addr

/-- A raw store through the `T**` obtained from
`NoWriteBarrierPtr::operator&`: plain C++ assignment to the pointed-to
slot, bypassing the wrapper's assignment operator; delivers no
notification. -/
def NoWriteBarrierPtr.storeThroughAddress (s : NoWriteBarrierPtr) (p : Nat) :
    NoWriteBarrierPtr × List HookEvent :=
  ({ s with value := p }, [])

/-- State of one `NoWriteBarrierField<T>` instance: the address of the
field and the stored value. -/
structure NoWriteBarrierField (α : Type) where
  addr : Nat
  value : α
deriving DecidableEq, Repr

/-- `NoWriteBarrierField::operator T&()` (and the const overload), read
side: the conversion exposes the stored value. -/
def NoWriteBarrierField.operatorRef {α : Type} (s : NoWriteBarrierField α) : α :=
  s.value

/-- `NoWriteBarrierField::operator&()` (non-const): returns `&value`, the
address of the stored value, which is the field's own address since
`value` is the class's only member. -/
def NoWriteBarrierField.operatorAmp {α : Type} (s : NoWriteBarrierField α) : Nat :=
  s.addr

/-- A raw store through the mutable reference or `T*` obtained from
`NoWriteBarrierField::operator T&` / `operator&`: plain C++ assignment to
the stored value, bypassing the wrapper's assignment operator; delivers
no notification. -/
def NoWriteBarrierField.storeThroughRef {α : Type} (s : NoWriteBarrierField α) (v : α) :
    NoWriteBarrierField α × List HookEvent :=
  ({ s with value := v }, [])

/-- `NoWriteBarrierField::operator=(T const&)`: plain store, never
notifies. -/
def NoWriteBarrierField.assign {α : Type} (s : NoWriteBarrierField α) (v : α) :
    NoWriteBarrierField α × List HookEvent :=
  ({ s with value := v }, [])

/-- `js_memcpy_s(dst, dstBytes, src, srcBytes)` over arrays of equally
sized elements, modelled at element granularity: the first `count`
source slots overwrite the first `count` destination slots, the rest of
the destination is untouched.  (`count` is the byte extent divided by the
element size.) -/
def js_memcpy_s (dst src : List Nat) (count : Nat) : List Nat :=
  src.take count ++ dst.drop count

/-- `memmove(dst, src, bytes)`: overlap-safe byte copy; on the
non-aliased buffers of this model it coincides with a plain copy of
`count` element slots. -/
def memmove (dst src : List Nat) (count : Nat) : List Nat :=
  src.take count ++ dst.drop count

/-- `memset(dst, 0, bytes)`: zero-fill of the first `count` element
slots; the rest of the destination is untouched. -/
def memset0 (dst : List Nat) (count : Nat) : List Nat :=
  List.replicate (min count dst.length) 0 ++ dst.drop count

/-- `_ArrayWriteBarrier<Policy>::WriteBarrier(address, count)`: the
primary template does nothing; the specialization for
`_write_barrier_policy` — compiled only under `RECYCLER_WRITE_BARRIER`
(parameter `wb`) — calls
`RecyclerWriteBarrierManager::WriteBarrier(address, sizeof(T) * count)`.
The snapshot is the notified region's contents at call time. -/
def ArrayWriteBarrier (wb : Bool) (pol : Policy) (elemSize addr : Nat)
    (contents : List Nat) (count : Nat) : List HookEvent :=
  match pol with
  | .write_barrier_policy =>
      if wb then [⟨addr, elemSize * count, contents.take count⟩] else []
  | .no_write_barrier_policy => []

/-- The free function `WriteBarrier<T, Allocator, PolicyType>(address,
count)`: resolves the policy from `(Allocator, PolicyType)` and delegates
to `_ArrayWriteBarrier`. -/
def WriteBarrier (wb : Bool) (alloc : Allocator) (policyType : CppType)
    (elemSize addr : Nat) (contents : List Nat) (count : Nat) : List HookEvent :=
  ArrayWriteBarrier wb (AllocatorWriteBarrierPolicy alloc policyType)
    elemSize addr contents count

/-- The free function `CopyArray<Allocator, T, PolicyType>(dst, dstCount,
src, srcCount)`: `js_memcpy_s` of `srcCount` elements into the
destination, then `WriteBarrier<T, Allocator, PolicyType>(dst, dstCount)`.
Returns the new destination contents and the notifications delivered. -/
def CopyArray (wb : Bool) (alloc : Allocator) (policyType : CppType)
    (elemSize dstAddr : Nat) (dst : List Nat) (dstCount : Nat)
    (src : List Nat) (srcCount : Nat) : List Nat × List HookEvent :=
  let dst1 := js_memcpy_s dst src srcCount
  (dst1, WriteBarrier wb alloc policyType elemSize dstAddr dst1 dstCount)

/-- `WriteBarrierPtr<T>::MoveArray(dst, src, count)`: `memmove` of
`count` wrapper slots, then the free `WriteBarrier(dst, count)`
instantiated at element type `WriteBarrierPtr<T>` with the default
allocator `Recycler` and default `PolicyType` equal to the element
type. -/
def WriteBarrierPtr.MoveArray (wb : Bool) (t : CppType) (dstAddr : Nat)
    (dst src : List Nat) (count : Nat) : List Nat × List HookEvent :=
  let dst1 := memmove dst src count
  (dst1, WriteBarrier wb .Recycler (.writeBarrierPtr t) ptrSize dstAddr dst1 count)

/-- `WriteBarrierPtr<T>::CopyArray(dst, dstCount, T const* src,
srcCount)`: `js_memcpy_s` of `srcCount` raw pointers into the wrapper
slots, then `WriteBarrier(dst, dstCount)` as in `MoveArray`. -/
def WriteBarrierPtr.CopyArrayFromRaw (wb : Bool) (t : CppType) (dstAddr : Nat)
    (dst : List Nat) (dstCount : Nat) (src : List Nat) (srcCount : Nat) :
    List Nat × List HookEvent :=
  let dst1 := js_memcpy_s dst src srcCount
  (dst1, WriteBarrier wb .Recycler (.writeBarrierPtr t) ptrSize dstAddr dst1 dstCount)

/-- `WriteBarrierPtr<T>::CopyArray(dst, dstCount, WriteBarrierPtr const*
src, srcCount)`: `js_memcpy_s` of `srcCount` wrapper slots, then
`WriteBarrier(dst, dstCount)` as in `MoveArray`. -/
def WriteBarrierPtr.CopyArrayFromWB (wb : Bool) (t : CppType) (dstAddr : Nat)
    (dst : List Nat) (dstCount : Nat) (src : List Nat) (srcCount : Nat) :
    List Nat × List HookEvent :=
  let dst1 := js_memcpy_s dst src srcCount
  (dst1, WriteBarrier wb .Recycler (.writeBarrierPtr t) ptrSize dstAddr dst1 dstCount)

/-- `WriteBarrierPtr<T>::ClearArray(dst, count)`: a bare
`memset(dst, 0, sizeof(WriteBarrierPtr<T>) * count)`; no write-barrier
call on any path, under either policy or build switch. -/
def WriteBarrierPtr.ClearArray (dst : List Nat) (count : Nat) :
    List Nat × List HookEvent :=
  (memset0 dst count, [])

/-- The elementwise reference behavior: assign `dst[i] := src[i]` through
the guarded setter `WriteBarrierSet`, sequentially for `i < count`.
Slot `i` lives at `dstAddr + ptrSize * i`.  Returns the final contents
and the concatenated notifications. -/
def assignEach (wb : Bool) (dstAddr : Nat) (dst src : List Nat) :
    Nat → List Nat × List HookEvent
  | 0 => (dst, [])
  | n + 1 =>
      let prev := assignEach wb dstAddr dst src n
      let s : WriteBarrierPtr := ⟨dstAddr + ptrSize * n, prev.1.getD n 0⟩
      let step := s.WriteBarrierSet wb (src.getD n 0)
      (prev.1.set n step.1.ptr, prev.2 ++ step.2)

end Memory

/-- The overload `min(const T& a, const NoWriteBarrierField<T>& b)`:
`a < b ? a : b`, with `b` read through its conversion operator. -/
def min_raw_field {α : Type} [LinearOrder α] (a : α)
    (b : Memory.NoWriteBarrierField α) : α :=
  if a < b.operatorRef then a else b.operatorRef

/-- The overload `min(const NoWriteBarrierField<T>& a, const T& b)`. -/
def min_field_raw {α : Type} [LinearOrder α]
    (a : Memory.NoWriteBarrierField α) (b : α) : α :=
  if a.operatorRef < b then a.operatorRef else b

/-- The overload `min(const NoWriteBarrierField<T>& a, const
NoWriteBarrierField<T>& b)`. -/
def min_field_field {α : Type} [LinearOrder α]
    (a b : Memory.NoWriteBarrierField α) : α :=
  if a.operatorRef < b.operatorRef then a.operatorRef else b.operatorRef

/-- The overload `max(const NoWriteBarrierField<T>& a, const T& b)`:
`a > b ? a : b`. -/
def max_field_raw {α : Type} [LinearOrder α]
    (a : Memory.NoWriteBarrierField α) (b : α) : α :=
  if a.operatorRef > b then a.operatorRef else b

/-- The overload `max(const T& a, const NoWriteBarrierField<T>& b)`. -/
def max_raw_field {α : Type} [LinearOrder α] (a : α)
    (b : Memory.NoWriteBarrierField α) : α :=
  if a > b.operatorRef then a else b.operatorRef

/-- The overload `max(const NoWriteBarrierField<T>& a, const
NoWriteBarrierField<T>& b)`. -/
def max_field_field {α : Type} [LinearOrder α]
    (a b : Memory.NoWriteBarrierField α) : α :=
  if a.operatorRef > b.operatorRef then a.operatorRef else b.operatorRef

section Helpers

/-- Combining with `_write_barrier_policy` on the left is the identity. -/
theorem andPolicy_wb_left (p : Memory.Policy) :
    Memory.AndWriteBarrierPolicy .write_barrier_policy p = p := by
  cases p <;> rfl

/-- Combining with `_no_write_barrier_policy` on the left always elides. -/
theorem andPolicy_no_left (p : Memory.Policy) :
    Memory.AndWriteBarrierPolicy .no_write_barrier_policy p = .no_write_barrier_policy := by
  cases p <;> rfl

/-- Under the general `Recycler` allocator the resolved policy is exactly
the element-type policy. -/
theorem allocPolicy_recycler (t : Memory.CppType) :
    Memory.AllocatorWriteBarrierPolicy .Recycler t = Memory.TypeWriteBarrierPolicy t := by
  cases t <;> rfl

/-- Under the leaf allocator the resolved policy is always elided. -/
theorem allocPolicy_leaf (t : Memory.CppType) :
    Memory.AllocatorWriteBarrierPolicy .RecyclerLeafAllocator t = .no_write_barrier_policy := by
  cases t <;> rfl

/-- Under an unregistered allocator tag the resolved policy is always
elided. -/
theorem allocPolicy_otherTag (n : Nat) (t : Memory.CppType) :
    Memory.AllocatorWriteBarrierPolicy (.otherTag n) t = .no_write_barrier_policy := by
  cases t <;> rfl

/-- Under `RecyclerNonLeafAllocator` the partial specialization gives
`_write_barrier_policy` for every element type other than `int`. -/
theorem allocPolicy_nonLeaf (t : Memory.CppType) (h : t ≠ .intT) :
    Memory.AllocatorWriteBarrierPolicy .RecyclerNonLeafAllocator t = .write_barrier_policy := by
  cases t <;> first | rfl | exact absurd rfl h

/-- `TypeWriteBarrierPolicy` is `_write_barrier_policy` exactly on raw
pointers and guarded wrappers, once the tag struct itself is excluded. -/
theorem typePolicy_wb_iff (t : Memory.CppType) (ht : t ≠ .writeBarrierPolicyTag) :
    Memory.TypeWriteBarrierPolicy t = .write_barrier_policy ↔
      (∃ v, t = .ptr v) ∨ (∃ v, t = .writeBarrierPtr v) := by
  cases t with
  | ptr v => exact ⟨fun _ => Or.inl ⟨v, rfl⟩, fun _ => rfl⟩
  | writeBarrierPtr v => exact ⟨fun _ => Or.inr ⟨v, rfl⟩, fun _ => rfl⟩
  | writeBarrierPolicyTag => exact absurd rfl ht
  | _ => simp [Memory.TypeWriteBarrierPolicy]

end Helpers

/-- If-then-else on `<` computes `min`. -/
theorem ite_lt_eq_min {α : Type} [LinearOrder α] (a b : α) :
    (if a < b then a else b) = Min.min a b := by
  rcases lt_or_ge a b with h | h
  · rw [if_pos h, min_eq_left h.le]
  · rw [if_neg (not_lt_of_ge h), min_eq_right h]

/-- If-then-else on `>` computes `max`. -/
theorem ite_gt_eq_max {α : Type} [LinearOrder α] (a b : α) :
    (if a > b then a else b) = Max.max a b := by
  rcases lt_or_ge b a with h | h
  · rw [if_pos h, max_eq_left h.le]
  · rw [if_neg (not_lt_of_ge h), max_eq_right h]

/-- C1: assigning to a guarded wrapper (from a raw pointer or from
another guarded wrapper) stores the new value and delivers exactly one
notification, over the wrapper's own slot, whose snapshot already shows
the new value (store happens before notify); assigning to the unguarded
wrapper selected under an elided policy stores the value and delivers no
notification.  The guarded side is stated in the barrier-enabled build
(`wb = true`); the disabled build is the subject of C8. -/
theorem c1_guarded_assign_notifies_once (s other : Memory.WriteBarrierPtr)
    (n : Memory.NoWriteBarrierPtr) (p : Nat) :
    Memory.WriteBarrierPtr.assign true s p
      = ({ s with ptr := p }, [⟨s.addr, Memory.ptrSize, [p]⟩])
    ∧ Memory.WriteBarrierPtr.assignFromWrapper true s other
      = ({ s with ptr := other.ptr }, [⟨s.addr, Memory.ptrSize, [other.ptr]⟩])
    ∧ Memory.NoWriteBarrierPtr.assign n p = ({ n with value := p }, []) :=
  ⟨rfl, rfl, rfl⟩

/-- C6: constructing a guarded wrapper from a raw pointer stores the
pointer and delivers no notification, whatever the prior slot contents,
the build switch, or the resolved policy (the elided-policy wrapper
`NoWriteBarrierPtr` behaves the same way). -/
theorem c6_construct_no_notification (wb : Bool) (addr g p q : Nat) :
    Memory.WriteBarrierPtr.construct wb addr g p = (⟨addr, p⟩, [])
    ∧ Memory.NoWriteBarrierPtr.construct addr q = (⟨addr, q⟩, []) :=
  ⟨rfl, rfl⟩

/-- C8: with the build-time switch `RECYCLER_WRITE_BARRIER` disabled, the
guarded setter coincides with the no-barrier setter and delivers no
notification, and the bulk trigger `_ArrayWriteBarrier` / `WriteBarrier`
delivers no notification and touches no state, for every policy,
allocator and element type. -/
theorem c8_disabled_build_noop (s : Memory.WriteBarrierPtr) (p : Nat)
    (pol : Memory.Policy) (alloc : Memory.Allocator) (polT : Memory.CppType)
    (elemSize addr count : Nat) (contents : List Nat) :
    Memory.WriteBarrierPtr.WriteBarrierSet false s p = (s.NoWriteBarrierSet p, [])
    ∧ Memory.ArrayWriteBarrier false pol elemSize addr contents count = []
    ∧ Memory.WriteBarrier false alloc polT elemSize addr contents count = [] := by
  refine ⟨rfl, ?_, ?_⟩
  · cases pol <;> rfl
  · unfold Memory.WriteBarrier
    cases Memory.AllocatorWriteBarrierPolicy alloc polT <;> rfl

/-- C9: the `min`/`max` overloads mixing `NoWriteBarrierField`-wrapped
and raw operands agree with the plain `min`/`max` of the underlying
values, in every operand order; the operations are pure reads and modify
neither operand. -/
theorem c9_min_max_mixed_consistent {α : Type} [LinearOrder α] (a : α)
    (f g : Memory.NoWriteBarrierField α) :
    min_raw_field a f = Min.min a f.value
    ∧ min_field_raw f a = Min.min f.value a
    ∧ min_field_field f g = Min.min f.value g.value
    ∧ max_field_raw f a = Max.max f.value a
    ∧ max_raw_field a f = Max.max a f.value
    ∧ max_field_field f g = Max.max f.value g.value
    ∧ min_raw_field a f = min_field_raw f a
    ∧ max_raw_field a f = max_field_raw f a := by
  have h1 : min_raw_field a f = Min.min a f.value := ite_lt_eq_min a f.value
  have h2 : min_field_raw f a = Min.min f.value a := ite_lt_eq_min f.value a
  have h4 : max_field_raw f a = Max.max f.value a := ite_gt_eq_max f.value a
  have h5 : max_raw_field a f = Max.max a f.value := ite_gt_eq_max a f.value
  refine ⟨h1, h2, ite_lt_eq_min f.value g.value, h4, h5,
    ite_gt_eq_max f.value g.value, ?_, ?_⟩
  · rw [h1, h2, min_comm]
  · rw [h4, h5, max_comm]

/-- C10: the companion wrappers `NoWriteBarrierField` and
`NoWriteBarrierPtr` expose a mutable address (and, for the field wrapper,
a mutable reference) to the stored value itself, and a direct store
through it changes the stored bits without any notification, reaching
exactly the state the wrapper's own assignment operator would produce. -/
theorem c10_companion_mutable_address {α : Type} (f : Memory.NoWriteBarrierField α)
    (v : α) (p : Memory.NoWriteBarrierPtr) (q : Nat) :
    f.operatorAmp = f.addr
    ∧ f.operatorRef = f.value
    ∧ (f.storeThroughRef v).1.value = v
    ∧ (f.storeThroughRef v).1.addr = f.addr
    ∧ (f.storeThroughRef v).2 = []
    ∧ f.storeThroughRef v = f.assign v
    ∧ p.operatorAmp = p.addr
    ∧ (p.storeThroughAddress q).1.value = q
    ∧ (p.storeThroughAddress q).1.addr = p.addr
    ∧ (p.storeThroughAddress q).2 = [] :=
  ⟨rfl, rfl, rfl, rfl, rfl, rfl, rfl, rfl, rfl, rfl⟩

/-- C2: for every pair not covered by an explicit specialization (the
`RecyclerNonLeafAllocator` overrides, and the `_write_barrier_policy` tag
type, which carries its own concrete-type specialization), policy
resolution returns `_write_barrier_policy` exactly when the allocator is
the general tracing `Recycler` and the element type is a raw pointer or a
guarded wrapper; any other element type gets the opaque default and any
unregistered allocator tag gets the non-tracing default, both eliding the
barrier. -/
theorem c2_general_rule_resolution (a : Memory.Allocator) (t : Memory.CppType)
    (m : Nat) (u : Memory.CppType)
    (ha : a ≠ Memory.Allocator.RecyclerNonLeafAllocator)
    (ht : t ≠ Memory.CppType.writeBarrierPolicyTag) :
    (Memory.AllocatorWriteBarrierPolicy a t = .write_barrier_policy ↔
      a = .Recycler ∧ ((∃ v, t = .ptr v) ∨ (∃ v, t = .writeBarrierPtr v)))
    ∧ Memory.TypeWriteBarrierPolicy (.other m) = .no_write_barrier_policy
    ∧ Memory.AllocatorTypeWriteBarrierPolicy (.otherTag m) = .no_write_barrier_policy
    ∧ Memory.AllocatorWriteBarrierPolicy (.otherTag m) u = .no_write_barrier_policy := by
  refine ⟨?_, rfl, rfl, allocPolicy_otherTag m u⟩
  cases a with
  | Recycler =>
      rw [allocPolicy_recycler, typePolicy_wb_iff t ht]
      simp
  | RecyclerNonLeafAllocator => exact absurd rfl ha
  | RecyclerLeafAllocator =>
      rw [allocPolicy_leaf]
      simp
  | otherTag k =>
      rw [allocPolicy_otherTag]
      simp

/-- Witness for C2 at the tracing allocator with a raw-pointer element. -/
theorem c2_general_rule_resolution_witness :
    (Memory.Allocator.Recycler ≠ Memory.Allocator.RecyclerNonLeafAllocator
      ∧ Memory.CppType.ptr .intT ≠ Memory.CppType.writeBarrierPolicyTag)
    ∧ ((Memory.AllocatorWriteBarrierPolicy .Recycler (.ptr .intT) = .write_barrier_policy ↔
          Memory.Allocator.Recycler = Memory.Allocator.Recycler
          ∧ ((∃ v, Memory.CppType.ptr .intT = .ptr v)
            ∨ (∃ v, Memory.CppType.ptr .intT = .writeBarrierPtr v)))
      ∧ Memory.TypeWriteBarrierPolicy (.other 0) = .no_write_barrier_policy
      ∧ Memory.AllocatorTypeWriteBarrierPolicy (.otherTag 0) = .no_write_barrier_policy
      ∧ Memory.AllocatorWriteBarrierPolicy (.otherTag 0) .intT = .no_write_barrier_policy) :=
  ⟨⟨by decide, by decide⟩,
    c2_general_rule_resolution .Recycler (.ptr .intT) 0 .intT (by decide) (by decide)⟩

/-- C4: the explicit specializations win over the general combination
rule: the leaf allocator resolves to elided for every element type, and
the pinned pair `(RecyclerNonLeafAllocator, int)` resolves to elided even
though the partial specialization for that allocator resolves every other
element type to required. -/
theorem c4_override_precedence (t u : Memory.CppType) (hu : u ≠ .intT) :
    Memory.AllocatorWriteBarrierPolicy .RecyclerLeafAllocator t = .no_write_barrier_policy
    ∧ Memory.AllocatorWriteBarrierPolicy .RecyclerNonLeafAllocator .intT
        = .no_write_barrier_policy
    ∧ Memory.AllocatorWriteBarrierPolicy .RecyclerNonLeafAllocator u
        = .write_barrier_policy :=
  ⟨allocPolicy_leaf t, rfl, allocPolicy_nonLeaf u hu⟩

/-- Witness for C4 at a raw-pointer element type. -/
theorem c4_override_precedence_witness :
    (Memory.CppType.ptr .intT ≠ Memory.CppType.intT)
    ∧ (Memory.AllocatorWriteBarrierPolicy .RecyclerLeafAllocator (.ptr .intT)
          = .no_write_barrier_policy
      ∧ Memory.AllocatorWriteBarrierPolicy .RecyclerNonLeafAllocator .intT
          = .no_write_barrier_policy
      ∧ Memory.AllocatorWriteBarrierPolicy .RecyclerNonLeafAllocator (.ptr .intT)
          = .write_barrier_policy) :=
  ⟨by decide, c4_override_precedence (.ptr .intT) (.ptr .intT) (by decide)⟩

/-- C5: `ClearArray` zero-fills exactly the first `count` element slots
(slots beyond `count` keep their contents and the region keeps its
length) and delivers no notification; the operation consults no policy,
so this holds whatever the resolved policy for the element/allocator
pair. -/
theorem c5_clearArray_zero_fill (dst : List Nat) (count i : Nat)
    (hc : count ≤ dst.length) :
    ((Memory.WriteBarrierPtr.ClearArray dst count).1.length = dst.length)
    ∧ (i < count → (Memory.WriteBarrierPtr.ClearArray dst count).1.getD i 1 = 0)
    ∧ (count ≤ i →
        (Memory.WriteBarrierPtr.ClearArray dst count).1.getD i 0 = dst.getD i 0)
    ∧ (Memory.WriteBarrierPtr.ClearArray dst count).2 = [] := by
  have hmin : Min.min count dst.length = count := min_eq_left hc
  refine ⟨?_, ?_, ?_, rfl⟩
  · show (List.replicate (Min.min count dst.length) 0 ++ dst.drop count).length
      = dst.length
    rw [hmin, List.length_append, List.length_replicate, List.length_drop]
    omega
  · intro hi
    show (List.replicate (Min.min count dst.length) 0 ++ dst.drop count).getD i 1 = 0
    rw [hmin, List.getD_eq_getElem?_getD, List.getElem?_append,
      List.length_replicate, if_pos hi, List.getElem?_replicate, if_pos hi]
    rfl
  · intro hi
    show (List.replicate (Min.min count dst.length) 0 ++ dst.drop count).getD i 0
      = dst.getD i 0
    rw [hmin, List.getD_eq_getElem?_getD,
      List.getElem?_append_right (by rw [List.length_replicate]; omega),
      List.length_replicate, List.getElem?_drop, List.getD_eq_getElem?_getD]
    have hcnt : count + (i - count) = i := by omega
    rw [hcnt]

/-- Witness for C5 on a three-slot region cleared up to two slots. -/
theorem c5_clearArray_zero_fill_witness :
    (2 ≤ ([5, 6, 7] : List Nat).length)
    ∧ (((Memory.WriteBarrierPtr.ClearArray [5, 6, 7] 2).1.length
          = ([5, 6, 7] : List Nat).length)
      ∧ (1 < 2 → (Memory.WriteBarrierPtr.ClearArray [5, 6, 7] 2).1.getD 1 1 = 0)
      ∧ (2 ≤ 1 → (Memory.WriteBarrierPtr.ClearArray [5, 6, 7] 2).1.getD 1 0
          = ([5, 6, 7] : List Nat).getD 1 0)
      ∧ (Memory.WriteBarrierPtr.ClearArray [5, 6, 7] 2).2 = []) :=
  ⟨by decide, c5_clearArray_zero_fill [5, 6, 7] 2 1 (by decide)⟩

/-- Setting the element just past a prefix writes into the suffix head. -/
theorem set_append_len {α : Type} (l1 l2 : List α) (v : α) :
    (l1 ++ l2).set l1.length v = l1 ++ l2.set 0 v := by
  induction l1 with
  | nil => rfl
  | cons a tl ih => simp [List.set, ih]

/-- Version of `set_append_len` keyed by an index equal to the prefix
length. -/
theorem set_append_at {α : Type} (l1 l2 : List α) (v : α) (k : Nat)
    (h : l1.length = k) :
    (l1 ++ l2).set k v = l1 ++ l2.set 0 v := by
  subst h
  exact set_append_len l1 l2 v

/-- After `n` elementwise guarded assignments the destination holds the
first `n` source slots followed by its own remaining tail. -/
theorem assignEach_fst (wb : Bool) (dstAddr : Nat) (dst src : List Nat) :
    ∀ n : Nat, n ≤ src.length → n ≤ dst.length →
      (Memory.assignEach wb dstAddr dst src n).1 = src.take n ++ dst.drop n := by
  intro n
  induction n with
  | zero => intro _ _; simp [Memory.assignEach]
  | succ k ih =>
      intro h1 h2
      have hk1 : k ≤ src.length := Nat.le_of_succ_le h1
      have hk2 : k ≤ dst.length := Nat.le_of_succ_le h2
      have hks : k < src.length := h1
      have hkd : k < dst.length := h2
      have hprev := ih hk1 hk2
      have hstep : (Memory.assignEach wb dstAddr dst src (k + 1)).1
          = (Memory.assignEach wb dstAddr dst src k).1.set k (src.getD k 0) := rfl
      obtain ⟨x, xs, hx⟩ : ∃ x xs, dst.drop k = x :: xs := by
        cases hd : dst.drop k with
        | nil =>
            exfalso
            have hlen := List.length_drop k dst
            rw [hd] at hlen
            simp at hlen
            omega
        | cons x xs => exact ⟨x, xs, rfl⟩
      have hlen : (src.take k).length = k := by rw [List.length_take]; omega
      have htake : src.take (k + 1) = src.take k ++ [src.getD k 0] := by
        rw [List.take_succ, List.getElem?_eq_getElem hks,
          List.getD_eq_getElem src 0 hks]
        rfl
      have hdrop : dst.drop (k + 1) = xs := by
        rw [← List.tail_drop, hx]
        rfl
      have hset : (src.take k ++ dst.drop k).set k (src.getD k 0)
          = src.take k ++ (dst.drop k).set 0 (src.getD k 0) :=
        set_append_at (src.take k) (dst.drop k) (src.getD k 0) k hlen
      rw [hstep, hprev, hset, hx, htake, hdrop,
        List.append_assoc, List.singleton_append]
      rfl

/-- Elementwise guarded assignment delivers one notification per element
in the barrier-enabled build and none in the disabled build. -/
theorem assignEach_snd_length (wb : Bool) (dstAddr : Nat) (dst src : List Nat)
    (n : Nat) :
    (Memory.assignEach wb dstAddr dst src n).2.length = if wb then n else 0 := by
  induction n with
  | zero => cases wb <;> rfl
  | succ k ih =>
      have hstep : (Memory.assignEach wb dstAddr dst src (k + 1)).2
          = (Memory.assignEach wb dstAddr dst src k).2
            ++ (Memory.WriteBarrierPtr.WriteBarrierSet wb
                ⟨dstAddr + Memory.ptrSize * k,
                  (Memory.assignEach wb dstAddr dst src k).1.getD k 0⟩
                (src.getD k 0)).2 := rfl
      rw [hstep, List.length_append, ih]
      cases wb <;> simp [Memory.WriteBarrierPtr.WriteBarrierSet,
        Memory.RecyclerWriteBarrierManager_WriteBarrier]

/-- C3: each bulk `MoveArray` / `CopyArray` operation leaves the
destination range bit-identical to what `n` sequential single-element
guarded assignments produce, and delivers a number of notifications that
depends only on the build switch and on whether the resolved policy is
required — at most one per call and never on `n` — while `n` elementwise
assignments deliver `n` notifications in the enabled build. -/
theorem c3_bulk_matches_elementwise (wb : Bool) (t polT : Memory.CppType)
    (alloc : Memory.Allocator) (elemSize dstAddr : Nat) (dst src : List Nat)
    (n : Nat) (h1 : n ≤ src.length) (h2 : n ≤ dst.length) :
    (Memory.WriteBarrierPtr.MoveArray wb t dstAddr dst src n).1
        = (Memory.assignEach wb dstAddr dst src n).1
    ∧ (Memory.WriteBarrierPtr.CopyArrayFromWB wb t dstAddr dst n src n).1
        = (Memory.assignEach wb dstAddr dst src n).1
    ∧ (Memory.WriteBarrierPtr.CopyArrayFromRaw wb t dstAddr dst n src n).1
        = (Memory.assignEach wb dstAddr dst src n).1
    ∧ (Memory.CopyArray wb alloc polT elemSize dstAddr dst n src n).1
        = (Memory.assignEach wb dstAddr dst src n).1
    ∧ (Memory.WriteBarrierPtr.MoveArray wb t dstAddr dst src n).2.length
        = (if wb then 1 else 0)
    ∧ (Memory.WriteBarrierPtr.CopyArrayFromWB wb t dstAddr dst n src n).2.length
        = (if wb then 1 else 0)
    ∧ (Memory.WriteBarrierPtr.CopyArrayFromRaw wb t dstAddr dst n src n).2.length
        = (if wb then 1 else 0)
    ∧ (Memory.CopyArray wb alloc polT elemSize dstAddr dst n src n).2.length
        = (if Memory.AllocatorWriteBarrierPolicy alloc polT = .write_barrier_policy
           then (if wb then 1 else 0) else 0)
    ∧ (Memory.assignEach wb dstAddr dst src n).2.length = (if wb then n else 0) := by
  have hmem := assignEach_fst wb dstAddr dst src n h1 h2
  refine ⟨?_, ?_, ?_, ?_, ?_, ?_, ?_, ?_,
    assignEach_snd_length wb dstAddr dst src n⟩
  · rw [hmem]; rfl
  · rw [hmem]; rfl
  · rw [hmem]; rfl
  · rw [hmem]; rfl
  · cases wb <;> rfl
  · cases wb <;> rfl
  · cases wb <;> rfl
  · cases h : Memory.AllocatorWriteBarrierPolicy alloc polT <;> cases wb <;>
      simp [Memory.CopyArray, Memory.WriteBarrier, Memory.ArrayWriteBarrier, h]

/-- Witness for C3: a bulk move of two slots reaches the same destination
as two elementwise guarded assignments. -/
theorem c3_bulk_matches_elementwise_witness :
    (2 ≤ ([7, 8, 9] : List Nat).length ∧ 2 ≤ ([1, 2, 3] : List Nat).length)
    ∧ ((Memory.WriteBarrierPtr.MoveArray true .intT 100 [1, 2, 3] [7, 8, 9] 2).1
        = (Memory.assignEach true 100 [1, 2, 3] [7, 8, 9] 2).1) :=
  ⟨⟨by decide, by decide⟩,
    (c3_bulk_matches_elementwise true .intT (.ptr .intT) .Recycler Memory.ptrSize
      100 [1, 2, 3] [7, 8, 9] 2 (by decide) (by decide)).1⟩
